import Mathlib

/-!
Verification of the concurrent funds-transfer engine
(`app/transfer.py`, repository_after variant).

The Python source is embedded shallowly:

* the `accounts` table is an association list `Store` from account id to
  balance (SQL `WHERE id = ...` reads take the first matching row, updates
  touch every matching row, mirroring SQL semantics on a table whose `id`
  column the data model declares globally unique);
* `transfer_funds` becomes a pure function from a store and the three
  arguments to a `TransferResult` holding the post-call store, the raised
  error (if any) and the trace of store statements it executed, with the
  `with conn.transaction()` block modelled as commit-on-success /
  rollback-to-the-initial-store-on-exception;
* each `raise` site keeps its identity: Python's `ValueError(msg)` with its
  four distinct message strings becomes `TransferError.valueError` applied
  to a four-constructor message type, and the `InsufficientFunds` exception
  class becomes `TransferError.insufficientFunds`.
-/

/-- Account identifiers are Python ints. -/
abbrev AccountId := Int

/-- The `accounts` table: rows of (id, balance). -/
abbrev Store := List (AccountId × Int)

/-- The distinct `ValueError` message strings raised by `transfer.py`:
`"amount must be positive"`, `"from_id and to_id must differ"`,
`"account not found: {account_id}"` and `"from_id not found"`. -/
inductive ErrMsg where
  | amountMustBePositive
  | fromToMustDiffer
  | accountNotFound (id : AccountId)
  | fromIdNotFound
deriving DecidableEq, Repr

/-- The exceptions `transfer_funds` can raise: a `ValueError` carrying one
of the four messages, or the dedicated `InsufficientFunds` class. -/
inductive TransferError where
  | valueError (msg : ErrMsg)
  | insufficientFunds
deriving DecidableEq, Repr

/-- One SQL statement executed against the store, recorded in order. -/
inductive StoreEvent where
  | beginTx
  | lockRow (id : AccountId)
  | selectBalance (id : AccountId)
  | updateBalance (id : AccountId) (delta : Int)
  | commit
  | rollback
deriving DecidableEq, Repr

/-- First row whose id matches, as `SELECT ... WHERE id = %s` + `fetchone()`. -/
def lookupBalance : Store → AccountId → Option Int
  | [], _ => none
  | (k, v) :: rest, id => if k = id then some v else lookupBalance rest id

/-- `UPDATE accounts SET balance = balance + delta WHERE id = %s`:
adds `delta` to the balance of every row whose id matches. -/
def adjustBalance (s : Store) (id : AccountId) (delta : Int) : Store :=
  s.map fun p => if p.1 = id then (p.1, p.2 + delta) else p

/-- The lock-ordering protocol `first_id, second_id = sorted((from_id, to_id))`:
the canonical pair under the integer order. -/
def orderAccounts (x y : AccountId) : AccountId × AccountId :=
  if x ≤ y then (x, y) else (y, x)

/-- `_lock_account`: `SELECT 1 FROM accounts WHERE id = %s FOR UPDATE` then
`raise ValueError(f"account not found: {account_id}")` when no row comes back.
Returns the raised error, or `none` when the row exists and is now locked. -/
def lock_account (s : Store) (account_id : AccountId) : Option TransferError :=
  match lookupBalance s account_id with
  | none => some (.valueError (.accountNotFound account_id))
  | some _ => none

/-- Result of one `transfer_funds` call: the store visible after the call,
the exception raised (if any), and the trace of statements executed. -/
structure TransferResult where
  store : Store
  error : Option TransferError
  events : List StoreEvent
deriving DecidableEq, Repr

/-- Shallow embedding of `transfer_funds(conn, from_id, to_id, amount)`.
The two precondition checks run before any store access; the body runs
inside `with conn.transaction()`, so on any exception the store reverts to
its pre-call state while the trace keeps the statements issued before the
rollback. -/
def transfer_funds (s : Store) (from_id to_id : AccountId) (amount : Int) :
    TransferResult :=
  if amount ≤ 0 then
    ⟨s, some (.valueError .amountMustBePositive), []⟩
  else if from_id = to_id then
    ⟨s, some (.valueError .fromToMustDiffer), []⟩
  else
    let first_id := (orderAccounts from_id to_id).1
    let second_id := (orderAccounts from_id to_id).2
    match lock_account s first_id with
    | some e => ⟨s, some e, [.beginTx, .lockRow first_id, .rollback]⟩
    | none =>
      match lock_account s second_id with
      | some e =>
          ⟨s, some e, [.beginTx, .lockRow first_id, .lockRow second_id, .rollback]⟩
      | none =>
        match lookupBalance s from_id with
        | none =>
            ⟨s, some (.valueError .fromIdNotFound),
              [.beginTx, .lockRow first_id, .lockRow second_id,
               .selectBalance from_id, .rollback]⟩
        | some from_balance =>
          if from_balance < amount then
            ⟨s, some .insufficientFunds,
              [.beginTx, .lockRow first_id, .lockRow second_id,
               .selectBalance from_id, .rollback]⟩
          else
            ⟨adjustBalance (adjustBalance s from_id (-amount)) to_id amount, none,
              [.beginTx, .lockRow first_id, .lockRow second_id,
               .selectBalance from_id, .updateBalance from_id (-amount),
               .updateBalance to_id amount, .commit]⟩

/-- Ids column of the store. -/
def storeKeys (s : Store) : List AccountId := s.map Prod.fst

/-- Sum of all balances in the store. -/
def totalBalance (s : Store) : Int := (s.map Prod.snd).sum

/-- Ids of the rows on which a call executed `SELECT ... FOR UPDATE`,
in execution order. -/
def lockEvents (r : TransferResult) : List AccountId :=
  r.events.filterMap fun e =>
    match e with
    | .lockRow i => some i
    | _ => none

/-- Whether an outcome is the `ValueError("from_id not found")` raise site. -/
def isFromIdNotFound : Option TransferError → Bool
  | some (.valueError .fromIdNotFound) => true
  | _ => false

/-- Run a list of transfer requests sequentially, accumulating the final
store and every error raised along the way. -/
def runTransfersChecked (s : Store) :
    List (AccountId × AccountId × Int) → Store × List TransferError
  | [] => (s, [])
  | (f, t, a) :: rest =>
    let r := transfer_funds s f t a
    let rest2 := runTransfersChecked r.store rest
    (rest2.1, r.error.toList ++ rest2.2)

/-- The store seeded by the test fixtures: balances {1: 1000, 2: 1000, 3: 1000}. -/
def seedStore : Store := [(1, 1000), (2, 1000), (3, 1000)]

/-- The five transfers of the spec's first concrete scenario. -/
def scenarioTransfers : List (AccountId × AccountId × Int) :=
  [(1, 2, 300), (2, 1, 200), (2, 3, 400), (3, 2, 150), (1, 3, 100)]

/-! ### Basic facts about the store primitives -/

theorem lock_account_none_iff (s : Store) (x : AccountId) :
    lock_account s x = none ↔ ∃ v, lookupBalance s x = some v := by
  unfold lock_account
  cases h : lookupBalance s x <;> simp

theorem lock_account_some_elim (s : Store) (x : AccountId) (e : TransferError)
    (h : lock_account s x = some e) :
    e = .valueError (.accountNotFound x) ∧ lookupBalance s x = none := by
  unfold lock_account at h
  cases hl : lookupBalance s x <;> rw [hl] at h <;> simp_all

theorem orderAccounts_symm (x y : AccountId) : orderAccounts x y = orderAccounts y x := by
  unfold orderAccounts
  rcases le_total x y with h | h
  · by_cases h2 : y ≤ x
    · have hxy : x = y := le_antisymm h h2
      subst hxy; simp
    · simp [h, h2]
  · by_cases h2 : x ≤ y
    · have hxy : x = y := le_antisymm h2 h
      subst hxy; simp
    · simp [h, h2]

theorem orderAccounts_cases (x y : AccountId) :
    orderAccounts x y = (x, y) ∨ orderAccounts x y = (y, x) := by
  unfold orderAccounts
  split
  · exact Or.inl rfl
  · exact Or.inr rfl

theorem orderAccounts_fst_lt_snd (x y : AccountId) (h : x ≠ y) :
    (orderAccounts x y).1 < (orderAccounts x y).2 := by
  unfold orderAccounts
  split
  · exact lt_of_le_of_ne (by assumption) h
  · exact lt_of_not_le (by assumption)

/-! ### Branch equations for `transfer_funds` -/

theorem transfer_funds_nonpos (s : Store) (f t : AccountId) (a : Int) (h : a ≤ 0) :
    transfer_funds s f t a = ⟨s, some (.valueError .amountMustBePositive), []⟩ := by
  simp [transfer_funds, h]

theorem transfer_funds_sameIds (s : Store) (f : AccountId) (a : Int) (h : ¬a ≤ 0) :
    transfer_funds s f f a = ⟨s, some (.valueError .fromToMustDiffer), []⟩ := by
  simp [transfer_funds, h]

theorem transfer_funds_firstLockFails (s : Store) (f t : AccountId) (a : Int)
    (e : TransferError) (h1 : ¬a ≤ 0) (h2 : f ≠ t)
    (h3 : lock_account s (orderAccounts f t).1 = some e) :
    transfer_funds s f t a =
      ⟨s, some e, [.beginTx, .lockRow (orderAccounts f t).1, .rollback]⟩ := by
  simp [transfer_funds, h1, h2, h3]

theorem transfer_funds_secondLockFails (s : Store) (f t : AccountId) (a : Int)
    (e : TransferError) (h1 : ¬a ≤ 0) (h2 : f ≠ t)
    (h3 : lock_account s (orderAccounts f t).1 = none)
    (h4 : lock_account s (orderAccounts f t).2 = some e) :
    transfer_funds s f t a =
      ⟨s, some e,
        [.beginTx, .lockRow (orderAccounts f t).1, .lockRow (orderAccounts f t).2,
         .rollback]⟩ := by
  simp [transfer_funds, h1, h2, h3, h4]

theorem transfer_funds_fromMissing (s : Store) (f t : AccountId) (a : Int)
    (h1 : ¬a ≤ 0) (h2 : f ≠ t)
    (h3 : lock_account s (orderAccounts f t).1 = none)
    (h4 : lock_account s (orderAccounts f t).2 = none)
    (h5 : lookupBalance s f = none) :
    transfer_funds s f t a =
      ⟨s, some (.valueError .fromIdNotFound),
        [.beginTx, .lockRow (orderAccounts f t).1, .lockRow (orderAccounts f t).2,
         .selectBalance f, .rollback]⟩ := by
  simp [transfer_funds, h1, h2, h3, h4, h5]

theorem transfer_funds_insufficient (s : Store) (f t : AccountId) (a bv : Int)
    (h1 : ¬a ≤ 0) (h2 : f ≠ t)
    (h3 : lock_account s (orderAccounts f t).1 = none)
    (h4 : lock_account s (orderAccounts f t).2 = none)
    (h5 : lookupBalance s f = some bv) (h6 : bv < a) :
    transfer_funds s f t a =
      ⟨s, some .insufficientFunds,
        [.beginTx, .lockRow (orderAccounts f t).1, .lockRow (orderAccounts f t).2,
         .selectBalance f, .rollback]⟩ := by
  simp [transfer_funds, h1, h2, h3, h4, h5, h6]

theorem transfer_funds_commit (s : Store) (f t : AccountId) (a bv : Int)
    (h1 : ¬a ≤ 0) (h2 : f ≠ t)
    (h3 : lock_account s (orderAccounts f t).1 = none)
    (h4 : lock_account s (orderAccounts f t).2 = none)
    (h5 : lookupBalance s f = some bv) (h6 : ¬bv < a) :
    transfer_funds s f t a =
      ⟨adjustBalance (adjustBalance s f (-a)) t a, none,
        [.beginTx, .lockRow (orderAccounts f t).1, .lockRow (orderAccounts f t).2,
         .selectBalance f, .updateBalance f (-a), .updateBalance t a, .commit]⟩ := by
  simp [transfer_funds, h1, h2, h3, h4, h5, h6]

/-! ### Algebra of lookup and adjust on the store -/

theorem adjustBalance_cons (pk : AccountId) (pv : Int) (rest : Store)
    (id : AccountId) (d : Int) :
    adjustBalance ((pk, pv) :: rest) id d =
      (pk, if pk = id then pv + d else pv) :: adjustBalance rest id d := by
  by_cases h : pk = id <;> simp [adjustBalance, h]

theorem totalBalance_cons (p : AccountId × Int) (s : Store) :
    totalBalance (p :: s) = p.2 + totalBalance s := by
  simp [totalBalance]

theorem storeKeys_cons (p : AccountId × Int) (s : Store) :
    storeKeys (p :: s) = p.1 :: storeKeys s := rfl

theorem adjustBalance_not_mem (s : Store) (id : AccountId) (d : Int)
    (h : id ∉ storeKeys s) : adjustBalance s id d = s := by
  induction s with
  | nil => rfl
  | cons p rest ih =>
    obtain ⟨pk, pv⟩ := p
    rw [storeKeys_cons, List.mem_cons] at h
    push_neg at h
    have hne : pk ≠ id := fun he => h.1 he.symm
    rw [adjustBalance_cons, if_neg hne, ih h.2]

theorem storeKeys_adjustBalance (s : Store) (id : AccountId) (d : Int) :
    storeKeys (adjustBalance s id d) = storeKeys s := by
  induction s with
  | nil => rfl
  | cons p rest ih =>
    obtain ⟨pk, pv⟩ := p
    rw [adjustBalance_cons, storeKeys_cons, storeKeys_cons, ih]

theorem lookupBalance_adjustBalance (s : Store) (id k : AccountId) (d : Int) :
    lookupBalance (adjustBalance s id d) k =
      (lookupBalance s k).map fun v => if k = id then v + d else v := by
  induction s with
  | nil => rfl
  | cons p rest ih =>
    obtain ⟨pk, pv⟩ := p
    rw [adjustBalance_cons]
    by_cases hk : pk = k
    · subst hk
      simp [lookupBalance]
    · simp [lookupBalance, hk, ih]

theorem lookupBalance_of_mem (s : Store) (k : AccountId) (v : Int)
    (hnd : (storeKeys s).Nodup) (hm : (k, v) ∈ s) :
    lookupBalance s k = some v := by
  induction s with
  | nil => cases hm
  | cons p rest ih =>
    obtain ⟨pk, pv⟩ := p
    rw [storeKeys_cons, List.nodup_cons] at hnd
    rcases List.mem_cons.mp hm with he | hr
    · injection he with h1 h2
      subst h1; subst h2
      simp [lookupBalance]
    · have hk : pk ≠ k := by
        intro he
        subst he
        exact hnd.1 (List.mem_map.mpr ⟨(pk, v), hr, rfl⟩)
      simp [lookupBalance, hk]
      exact ih hnd.2 hr

theorem totalBalance_adjustBalance (s : Store) (id : AccountId) (d v : Int)
    (hnd : (storeKeys s).Nodup) (hl : lookupBalance s id = some v) :
    totalBalance (adjustBalance s id d) = totalBalance s + d := by
  induction s with
  | nil => cases hl
  | cons p rest ih =>
    obtain ⟨pk, pv⟩ := p
    rw [storeKeys_cons, List.nodup_cons] at hnd
    rw [adjustBalance_cons, totalBalance_cons, totalBalance_cons]
    by_cases h : pk = id
    · subst h
      rw [if_pos rfl, adjustBalance_not_mem rest pk d hnd.1]
      ring
    · rw [if_neg h]
      have hl2 : lookupBalance rest id = some v := by
        simpa [lookupBalance, h] using hl
      rw [ih hnd.2 hl2]
      ring

/-! ### The master case split for one call -/

theorem lock_account_none_of_lookup (s : Store) (x : AccountId) (v : Int)
    (h : lookupBalance s x = some v) : lock_account s x = none := by
  unfold lock_account
  rw [h]

theorem transfer_spec (s : Store) (f t : AccountId) (a : Int) :
    ((transfer_funds s f t a).error = none ∧ 0 < a ∧ f ≠ t ∧
      (∃ bv, lookupBalance s f = some bv ∧ a ≤ bv) ∧
      (∃ tv, lookupBalance s t = some tv) ∧
      (transfer_funds s f t a).store = adjustBalance (adjustBalance s f (-a)) t a)
    ∨ ((transfer_funds s f t a).error ≠ none ∧ (transfer_funds s f t a).store = s) := by
  by_cases h1 : a ≤ 0
  · right; rw [transfer_funds_nonpos s f t a h1]; simp
  by_cases h2 : f = t
  · right; subst h2; rw [transfer_funds_sameIds s f a h1]; simp
  cases hfst : lock_account s (orderAccounts f t).1 with
  | some e => right; rw [transfer_funds_firstLockFails s f t a e h1 h2 hfst]; simp
  | none =>
    cases hsnd : lock_account s (orderAccounts f t).2 with
    | some e => right; rw [transfer_funds_secondLockFails s f t a e h1 h2 hfst hsnd]; simp
    | none =>
      cases hfrom : lookupBalance s f with
      | none => right; rw [transfer_funds_fromMissing s f t a h1 h2 hfst hsnd hfrom]; simp
      | some bv =>
        by_cases hlt : bv < a
        · right; rw [transfer_funds_insufficient s f t a bv h1 h2 hfst hsnd hfrom hlt]; simp
        · left
          rw [transfer_funds_commit s f t a bv h1 h2 hfst hsnd hfrom hlt]
          refine ⟨rfl, by omega, h2, ⟨bv, rfl, by omega⟩, ?_, rfl⟩
          rcases orderAccounts_cases f t with hc | hc
          · have hx := (lock_account_none_iff s (orderAccounts f t).2).mp hsnd
            rw [hc] at hx
            exact hx
          · have hx := (lock_account_none_iff s (orderAccounts f t).1).mp hfst
            rw [hc] at hx
            exact hx

theorem storeKeys_transfer (s : Store) (f t : AccountId) (a : Int) :
    storeKeys (transfer_funds s f t a).store = storeKeys s := by
  rcases transfer_spec s f t a with ⟨_, _, _, _, _, hst⟩ | ⟨_, hst⟩
  · rw [hst, storeKeys_adjustBalance, storeKeys_adjustBalance]
  · rw [hst]

theorem totalBalance_transfer (s : Store) (f t : AccountId) (a : Int)
    (hnd : (storeKeys s).Nodup) :
    totalBalance (transfer_funds s f t a).store = totalBalance s := by
  rcases transfer_spec s f t a with ⟨_, _, hft, ⟨bv, hbf, _⟩, ⟨tv, hbt⟩, hst⟩ | ⟨_, hst⟩
  · rw [hst]
    have hnd2 : (storeKeys (adjustBalance s f (-a))).Nodup := by
      rw [storeKeys_adjustBalance]; exact hnd
    have hbt2 : lookupBalance (adjustBalance s f (-a)) t = some tv := by
      rw [lookupBalance_adjustBalance, hbt]
      simp [Ne.symm hft]
    rw [totalBalance_adjustBalance _ t a tv hnd2 hbt2,
        totalBalance_adjustBalance s f (-a) bv hnd hbf]
    ring
  · rw [hst]

/-! ### Claim theorems -/

/-- C1: every successfully committed transfer debits and credits the same
`amount`, so the sum of all balances in the store is unchanged by any finite
sequence of transfers whose committed members are the only ones that mutate
the store (failed calls leave it untouched). -/
theorem conservation_of_total_balance (s : Store)
    (reqs : List (AccountId × AccountId × Int)) (hnd : (storeKeys s).Nodup) :
    totalBalance (runTransfersChecked s reqs).1 = totalBalance s := by
  induction reqs generalizing s with
  | nil => rfl
  | cons r rest ih =>
    obtain ⟨f, t, a⟩ := r
    show totalBalance (runTransfersChecked (transfer_funds s f t a).store rest).1 = _
    rw [ih (transfer_funds s f t a).store (by rw [storeKeys_transfer]; exact hnd)]
    exact totalBalance_transfer s f t a hnd

/-- C1 witness: conservation evaluated on the seeded store and the spec's
five-transfer scenario. -/
theorem conservation_of_total_balance_witness :
    totalBalance (runTransfersChecked seedStore scenarioTransfers).1 =
      totalBalance seedStore :=
  conservation_of_total_balance seedStore scenarioTransfers (by decide)

/-- C2: a call that raises any error leaves the store byte-identical to the
store before the call. -/
theorem failing_transfer_preserves_store (s : Store) (f t : AccountId) (a : Int)
    (e : TransferError) (h : (transfer_funds s f t a).error = some e) :
    (transfer_funds s f t a).store = s := by
  rcases transfer_spec s f t a with ⟨hnone, _⟩ | ⟨_, hst⟩
  · rw [hnone] at h; cases h
  · exact hst

/-- C2 witness: the same-account call on the seeded store fails and leaves
the store unchanged. -/
theorem failing_transfer_preserves_store_witness :
    (transfer_funds seedStore 1 1 50).store = seedStore :=
  failing_transfer_preserves_store seedStore 1 1 50
    (.valueError .fromToMustDiffer) (by decide)

/-- C3: for distinct ids the ordering protocol returns a pair that is
strictly increasing in the integer order and is independent of the transfer
direction. -/
theorem orderAccounts_sorted_and_symmetric (x y : AccountId) (h : x ≠ y) :
    (orderAccounts x y).1 < (orderAccounts x y).2 ∧
      orderAccounts x y = orderAccounts y x :=
  ⟨orderAccounts_fst_lt_snd x y h, orderAccounts_symm x y⟩

/-- C3 witness: the protocol evaluated on the pair (2, 1). -/
theorem orderAccounts_sorted_and_symmetric_witness :
    (orderAccounts 2 1).1 < (orderAccounts 2 1).2 ∧
      orderAccounts 2 1 = orderAccounts 1 2 :=
  orderAccounts_sorted_and_symmetric 2 1 (by decide)

/-- C10: the `row is None` re-check after both rows are locked is
unreachable: no call ever raises `ValueError("from_id not found")`. -/
theorem from_recheck_unreachable (s : Store) (f t : AccountId) (a : Int) :
    isFromIdNotFound (transfer_funds s f t a).error = false := by
  by_cases h1 : a ≤ 0
  · rw [transfer_funds_nonpos s f t a h1]; rfl
  by_cases h2 : f = t
  · subst h2; rw [transfer_funds_sameIds s f a h1]; rfl
  cases hfst : lock_account s (orderAccounts f t).1 with
  | some e =>
    rw [transfer_funds_firstLockFails s f t a e h1 h2 hfst]
    rw [show e = .valueError (.accountNotFound (orderAccounts f t).1) from
      (lock_account_some_elim s _ e hfst).1]
    rfl
  | none =>
    cases hsnd : lock_account s (orderAccounts f t).2 with
    | some e =>
      rw [transfer_funds_secondLockFails s f t a e h1 h2 hfst hsnd]
      rw [show e = .valueError (.accountNotFound (orderAccounts f t).2) from
        (lock_account_some_elim s _ e hsnd).1]
      rfl
    | none =>
      have hex : ∃ v, lookupBalance s f = some v := by
        rcases orderAccounts_cases f t with hc | hc
        · have hx := (lock_account_none_iff s (orderAccounts f t).1).mp hfst
          rw [hc] at hx
          exact hx
        · have hx := (lock_account_none_iff s (orderAccounts f t).2).mp hsnd
          rw [hc] at hx
          exact hx
      obtain ⟨bv, hbf⟩ := hex
      by_cases hlt : bv < a
      · rw [transfer_funds_insufficient s f t a bv h1 h2 hfst hsnd hbf hlt]; rfl
      · rw [transfer_funds_commit s f t a bv h1 h2 hfst hsnd hbf hlt]; rfl

/-- C4: if every balance is non-negative before the call and ids are unique,
then after a committed transfer every balance is still non-negative. -/
theorem committed_transfer_preserves_nonneg (s : Store) (f t : AccountId)
    (a : Int) (hnd : (storeKeys s).Nodup) (hpos : ∀ p ∈ s, 0 ≤ p.2)
    (hok : (transfer_funds s f t a).error = none) :
    ∀ p ∈ (transfer_funds s f t a).store, 0 ≤ p.2 := by
  rcases transfer_spec s f t a with ⟨_, ha, hft, ⟨bv, hbf, hle⟩, _, hst⟩ | ⟨hne, _⟩
  · rw [hst]
    intro p hp
    simp only [adjustBalance, List.map_map] at hp
    obtain ⟨r, hr, hpr⟩ := List.mem_map.mp hp
    obtain ⟨rk, rv⟩ := r
    have hrv : 0 ≤ rv := hpos (rk, rv) hr
    by_cases hkf : rk = f
    · subst hkf
      have hveq : rv = bv := by
        have hlm := lookupBalance_of_mem s rk rv hnd hr
        rw [hlm] at hbf
        injection hbf
      simp [hft] at hpr
      rw [← hpr]
      simp
      omega
    · by_cases hkt : rk = t
      · subst hkt
        simp [hkf] at hpr
        rw [← hpr]
        simp
        omega
      · simp [hkf, hkt] at hpr
        rw [← hpr]
        exact hrv
  · exact absurd hok hne

/-- C4 witness: after the committed transfer of 300 from account 1 to
account 2 on the seeded store, the debited row (1, 700) is still
non-negative. -/
theorem committed_transfer_preserves_nonneg_witness :
    0 ≤ ((1 : AccountId), (700 : Int)).2 :=
  committed_transfer_preserves_nonneg seedStore 1 2 300 (by decide)
    (by decide) (by decide) (1, 700) (by decide)

theorem precond_ok_error_shape (s : Store) (f t : AccountId) (a : Int)
    (h1 : ¬a ≤ 0) (h2 : f ≠ t) :
    (transfer_funds s f t a).error = none ∨
    (transfer_funds s f t a).error = some .insufficientFunds ∨
    (∃ m, (transfer_funds s f t a).error = some (.valueError (.accountNotFound m))) ∨
    (transfer_funds s f t a).error = some (.valueError .fromIdNotFound) := by
  cases hfst : lock_account s (orderAccounts f t).1 with
  | some e =>
    rw [transfer_funds_firstLockFails s f t a e h1 h2 hfst,
        (lock_account_some_elim s _ e hfst).1]
    right; right; left
    exact ⟨_, rfl⟩
  | none =>
    cases hsnd : lock_account s (orderAccounts f t).2 with
    | some e =>
      rw [transfer_funds_secondLockFails s f t a e h1 h2 hfst hsnd,
          (lock_account_some_elim s _ e hsnd).1]
      right; right; left
      exact ⟨_, rfl⟩
    | none =>
      cases hfrom : lookupBalance s f with
      | none =>
        rw [transfer_funds_fromMissing s f t a h1 h2 hfst hsnd hfrom]
        right; right; right; rfl
      | some bv =>
        by_cases hlt : bv < a
        · rw [transfer_funds_insufficient s f t a bv h1 h2 hfst hsnd hfrom hlt]
          right; left; rfl
        · rw [transfer_funds_commit s f t a bv h1 h2 hfst hsnd hfrom hlt]
          left; rfl

/-- C5: a call raises one of the two precondition `ValueError`s exactly when
the amount is non-positive or the two ids coincide, and in that case the
trace is empty: no transaction, no lock, no store statement at all. -/
theorem invalid_amount_characterization (s : Store) (f t : AccountId) (a : Int) :
    ((a ≤ 0 ∨ f = t) ↔
      ((transfer_funds s f t a).error = some (.valueError .amountMustBePositive) ∨
       (transfer_funds s f t a).error = some (.valueError .fromToMustDiffer))) ∧
    ((a ≤ 0 ∨ f = t) → (transfer_funds s f t a).events = []) := by
  constructor
  · constructor
    · rintro (h | h)
      · left; rw [transfer_funds_nonpos s f t a h]
      · by_cases h1 : a ≤ 0
        · left; rw [transfer_funds_nonpos s f t a h1]
        · right; rw [h, transfer_funds_sameIds s t a h1]
    · intro h
      by_cases h1 : a ≤ 0
      · exact Or.inl h1
      by_cases h2 : f = t
      · exact Or.inr h2
      exfalso
      rcases precond_ok_error_shape s f t a h1 h2 with h0 | h0 | ⟨m, h0⟩ | h0 <;>
        rcases h with hh | hh <;> rw [h0] at hh <;> simp at hh
  · rintro (h | h)
    · rw [transfer_funds_nonpos s f t a h]
    · by_cases h1 : a ≤ 0
      · rw [transfer_funds_nonpos s f t a h1]
      · rw [h, transfer_funds_sameIds s t a h1]

/-- C5 witness: the same-account transfer on the seeded store executes no
store statement. -/
theorem invalid_amount_characterization_witness :
    (transfer_funds seedStore 1 1 50).events = [] :=
  (invalid_amount_characterization seedStore 1 1 50).2 (Or.inr rfl)

/-- C6: with valid arguments and both rows present, a source balance below
the amount aborts with `InsufficientFunds`, rolls back (store unchanged,
rollback traced, no update statement), while a balance at least the amount
(equality included) commits with no error. -/
theorem insufficient_funds_characterization (s : Store) (f t : AccountId)
    (a bv tv : Int) (h1 : 0 < a) (h2 : f ≠ t)
    (hbf : lookupBalance s f = some bv) (hbt : lookupBalance s t = some tv) :
    (bv < a →
      transfer_funds s f t a =
        ⟨s, some .insufficientFunds,
         [.beginTx, .lockRow (orderAccounts f t).1, .lockRow (orderAccounts f t).2,
          .selectBalance f, .rollback]⟩) ∧
    (a ≤ bv → (transfer_funds s f t a).error = none) := by
  have h1' : ¬a ≤ 0 := by omega
  have hfst : lock_account s (orderAccounts f t).1 = none := by
    rcases orderAccounts_cases f t with hc | hc <;> rw [hc]
    · exact lock_account_none_of_lookup s f bv hbf
    · exact lock_account_none_of_lookup s t tv hbt
  have hsnd : lock_account s (orderAccounts f t).2 = none := by
    rcases orderAccounts_cases f t with hc | hc <;> rw [hc]
    · exact lock_account_none_of_lookup s t tv hbt
    · exact lock_account_none_of_lookup s f bv hbf
  constructor
  · intro hlt
    exact transfer_funds_insufficient s f t a bv h1' h2 hfst hsnd hbf hlt
  · intro hge
    rw [transfer_funds_commit s f t a bv h1' h2 hfst hsnd hbf (by omega)]

/-- C6 witness: the spec's third scenario, `Transfer(1, 2, 10000)` against
balance 1000, fails with `InsufficientFunds` and changes nothing. -/
theorem insufficient_funds_characterization_witness :
    transfer_funds seedStore 1 2 10000 =
      ⟨seedStore, some .insufficientFunds,
       [.beginTx, .lockRow (orderAccounts 1 2).1, .lockRow (orderAccounts 1 2).2,
        .selectBalance 1, .rollback]⟩ :=
  (insufficient_funds_characterization seedStore 1 2 10000 1000 1000
    (by decide) (by decide) (by decide) (by decide)).1 (by decide)

/-- C7: when either requested row is missing, the call fails with the
account-not-found error naming a missing account, the transaction is rolled
back, and the store (hence every real account's balance) is unchanged. -/
theorem missing_account_fails_not_found (s : Store) (f t : AccountId) (a : Int)
    (h1 : 0 < a) (h2 : f ≠ t)
    (hm : lookupBalance s f = none ∨ lookupBalance s t = none) :
    ∃ m, (transfer_funds s f t a).error = some (.valueError (.accountNotFound m)) ∧
      lookupBalance s m = none ∧
      (transfer_funds s f t a).store = s ∧
      StoreEvent.rollback ∈ (transfer_funds s f t a).events := by
  have h1' : ¬a ≤ 0 := by omega
  cases hfst : lookupBalance s (orderAccounts f t).1 with
  | none =>
    have hl : lock_account s (orderAccounts f t).1 =
        some (.valueError (.accountNotFound (orderAccounts f t).1)) := by
      unfold lock_account
      rw [hfst]
    refine ⟨(orderAccounts f t).1, ?_⟩
    rw [transfer_funds_firstLockFails s f t a _ h1' h2 hl]
    exact ⟨rfl, hfst, rfl, by simp⟩
  | some v =>
    have hlf : lock_account s (orderAccounts f t).1 = none := by
      unfold lock_account
      rw [hfst]
    cases hsnd : lookupBalance s (orderAccounts f t).2 with
    | none =>
      have hl2 : lock_account s (orderAccounts f t).2 =
          some (.valueError (.accountNotFound (orderAccounts f t).2)) := by
        unfold lock_account
        rw [hsnd]
      refine ⟨(orderAccounts f t).2, ?_⟩
      rw [transfer_funds_secondLockFails s f t a _ h1' h2 hlf hl2]
      exact ⟨rfl, hsnd, rfl, by simp⟩
    | some w =>
      exfalso
      rcases orderAccounts_cases f t with hc | hc <;>
        rw [hc] at hfst hsnd <;> rcases hm with hmm | hmm <;> simp_all

/-- C7 witness: transferring to the nonexistent account 5 from the seeded
store fails with the account-not-found error and changes nothing. -/
theorem missing_account_fails_not_found_witness :
    ∃ m, (transfer_funds seedStore 1 5 10).error =
        some (.valueError (.accountNotFound m)) ∧
      lookupBalance seedStore m = none ∧
      (transfer_funds seedStore 1 5 10).store = seedStore ∧
      StoreEvent.rollback ∈ (transfer_funds seedStore 1 5 10).events :=
  missing_account_fails_not_found seedStore 1 5 10 (by decide) (by decide)
    (Or.inr (by decide))

/-- C8: from the seeded balances, the five scenario transfers all succeed
sequentially and the final balances are {1: 800, 2: 850, 3: 1350}. -/
theorem sequential_scenario_final_balances :
    runTransfersChecked seedStore scenarioTransfers =
      ([(1, 800), (2, 850), (3, 1350)], []) := by
  decide

theorem lockEvents_both_locked (s : Store) (x y : AccountId) (a : Int)
    (h1 : ¬a ≤ 0) (h2 : x ≠ y)
    (hfst : lock_account s (orderAccounts x y).1 = none)
    (hsnd : lock_account s (orderAccounts x y).2 = none) :
    lockEvents (transfer_funds s x y a) =
      [(orderAccounts x y).1, (orderAccounts x y).2] := by
  cases hfrom : lookupBalance s x with
  | none =>
    rw [transfer_funds_fromMissing s x y a h1 h2 hfst hsnd hfrom]
    simp [lockEvents]
  | some bv =>
    by_cases hlt : bv < a
    · rw [transfer_funds_insufficient s x y a bv h1 h2 hfst hsnd hfrom hlt]
      simp [lockEvents]
    · rw [transfer_funds_commit s x y a bv h1 h2 hfst hsnd hfrom hlt]
      simp [lockEvents]

theorem lockEvents_symm (s : Store) (x y : AccountId) (a : Int) (h2 : x ≠ y) :
    lockEvents (transfer_funds s x y a) = lockEvents (transfer_funds s y x a) := by
  by_cases h1 : a ≤ 0
  · rw [transfer_funds_nonpos s x y a h1, transfer_funds_nonpos s y x a h1]
  have h2b : y ≠ x := Ne.symm h2
  have hsym : orderAccounts y x = orderAccounts x y := orderAccounts_symm y x
  cases hfst : lock_account s (orderAccounts x y).1 with
  | some e =>
    rw [transfer_funds_firstLockFails s x y a e h1 h2 hfst,
        transfer_funds_firstLockFails s y x a e h1 h2b (by rw [hsym]; exact hfst),
        hsym]
  | none =>
    cases hsnd : lock_account s (orderAccounts x y).2 with
    | some e =>
      rw [transfer_funds_secondLockFails s x y a e h1 h2 hfst hsnd,
          transfer_funds_secondLockFails s y x a e h1 h2b
            (by rw [hsym]; exact hfst) (by rw [hsym]; exact hsnd),
          hsym]
    | none =>
      rw [lockEvents_both_locked s x y a h1 h2 hfst hsnd,
          lockEvents_both_locked s y x a h1 h2b
            (by rw [hsym]; exact hfst) (by rw [hsym]; exact hsnd),
          hsym]

theorem wait_chain_breaks (n : Nat) (g w : Fin (n + 1) → Int)
    (hlt : ∀ i, g i < w i) : ∃ i, w i ≠ g (i + 1) := by
  by_contra hno
  push_neg at hno
  have hstep : ∀ i : Fin (n + 1), g i < g (i + 1) := fun i => hno i ▸ hlt i
  obtain ⟨i0, _, hmax⟩ :=
    Finset.exists_max_image Finset.univ g ⟨0, Finset.mem_univ 0⟩
  exact absurd (hstep i0) (not_lt.mpr (hmax (i0 + 1) (Finset.mem_univ _)))

/-- C9: for any family of in-flight transfers over distinct-id pairs, lock
acquisition is direction-independent (opposing transfers request rows in the
identical order), each call requests its two rows in strictly increasing id
order, and any candidate circular wait (each call holding its first lock and
waiting on a lock held by the next) has a broken link, so the wait-for graph
never contains a cycle and no deadlock can arise. -/
theorem no_deadlock_cycle (n : Nat) (f t : Fin (n + 1) → AccountId)
    (hd : ∀ i, f i ≠ t i) :
    (∀ (i : Fin (n + 1)) (s : Store) (a : Int),
        lockEvents (transfer_funds s (f i) (t i) a) =
          lockEvents (transfer_funds s (t i) (f i) a)) ∧
    (∀ i, (orderAccounts (f i) (t i)).1 < (orderAccounts (f i) (t i)).2) ∧
    (∃ i, (orderAccounts (f i) (t i)).2 ≠ (orderAccounts (f (i + 1)) (t (i + 1))).1) := by
  refine ⟨fun i s a => lockEvents_symm s (f i) (t i) a (hd i),
          fun i => orderAccounts_fst_lt_snd (f i) (t i) (hd i), ?_⟩
  exact wait_chain_breaks n (fun i => (orderAccounts (f i) (t i)).1)
    (fun i => (orderAccounts (f i) (t i)).2)
    (fun i => orderAccounts_fst_lt_snd (f i) (t i) (hd i))

/-- C9 witness: two opposing transfers, 1 to 2 concurrent with 2 to 1,
cannot form a circular wait. -/
theorem no_deadlock_cycle_witness :
    ∃ i : Fin 2,
      (orderAccounts ((i : Int) + 1) (2 - (i : Int))).2 ≠
        (orderAccounts (((i + 1 : Fin 2) : Int) + 1) (2 - ((i + 1 : Fin 2) : Int))).1 :=
  (no_deadlock_cycle 1 (fun i => (i : Int) + 1) (fun i => 2 - (i : Int))
    (by decide)).2.2
